import Mathlib

/-!
Shallow embedding of the nats-mcp repository (NATS JetStream MCP tool server).

Each tool handler in the source opens a broker connection, issues JetStream
client calls, and formats a `{content, isError}` envelope.  Here the broker is
modelled as oracles passed explicitly: a connection attempt is an
`Except String`, each JetStream call is a value or an `Except String` input,
and mutating calls are recorded as an emitted trace of `BrokerOp`s.  TS
numbers are modelled as `Int` (sequence arithmetic in the source can go
negative); optional / possibly-`undefined` fields are `Option`s; JS truthiness
on numbers is `≠ 0` and on strings is `≠ ""`.
-/

namespace NatsMcp

/-- A single text content segment of a tool result, i.e. the
`{content: [{type: "text", text}], isError}` envelope every handler returns. -/
structure ToolResult where
  text : String
  isError : Bool := false
deriving DecidableEq

/-- Helper `safeNumber` of `BaseTool` (tools/base.ts; helper body not present
under src/ — evident semantics from every call site: the value when it is a
number, otherwise the supplied default). -/
def safeNumber (x : Option Int) (d : Int) : Int :=
  x.getD d

/-- Helper `safeValue` of `BaseTool`: the value when present, else the default. -/
def safeValue (x : Option String) (d : String) : String :=
  x.getD d

/-- Storage type enum from the `nats` client (`StorageType.Memory/File`). -/
inductive NStorage where
  | memory
  | file
deriving DecidableEq

/-- Retention policy enum (`limits`, `interest`, `workqueue`). -/
inductive NRetention where
  | limits
  | interest
  | workqueue
deriving DecidableEq

/-- Discard policy enum (`DiscardPolicy.Old/New`). -/
inductive NDiscard where
  | old
  | new
deriving DecidableEq

/-- One entry of the `sources` list of a stream: `{ name: string }`. -/
structure StreamSource where
  name : String
deriving DecidableEq

/-- Stream configuration descriptor (`streamInfo.config` as used by the
handlers in tools/streamTools.ts). -/
structure StreamConfig where
  name : String
  subjects : List String
  max_age : Option Int
  max_bytes : Option Int
  max_msgs : Option Int
  max_msg_size : Option Int
  max_consumers : Option Int
  max_msgs_per_subject : Option Int
  storage : NStorage
  num_replicas : Int
  retention : NRetention
  discard : NDiscard
  duplicate_window : Option Int
  sealed : Bool
  deny_delete : Bool
  deny_purge : Bool
  allow_rollup_hdrs : Bool
  sources : Option (List StreamSource)
deriving DecidableEq

/-- Stream state snapshot (`streamInfo.state`). -/
structure StreamState where
  messages : Int
  bytes : Int
  first_seq : Int
  last_seq : Int
  consumer_count : Int
deriving DecidableEq

/-- Result of `js.streams.info(...)`: config + state. -/
structure StreamInfo where
  config : StreamConfig
  state : StreamState
deriving DecidableEq

/-- Delivery cursor (`status.delivered`): stream and consumer sequence. -/
structure SequenceInfo where
  stream_seq : Int
  consumer_seq : Int
deriving DecidableEq

/-- Consumer configuration as read by `diagnoseConsumer`
(`status.config`, defaulted with `|| {}`, fields read through
`safeValue`/`safeNumber`). -/
structure ConsumerConfig where
  durable_name : Option String := none
  ack_policy : Option String := none
  deliver_policy : Option String := none
  filter_subject : Option String := none
  max_ack_pending : Option Int := none
  max_deliver : Option Int := none
deriving DecidableEq

/-- Default of `status.config || {}`. -/
def emptyConsumerConfig : ConsumerConfig := {}

/-- Consumer status as read by the consumer tools (tools/consumerTools.ts):
`delivered` is accessed with `?.` and the numeric counters through
`safeNumber`, so all are optional here. -/
structure ConsumerStatus where
  config : Option ConsumerConfig
  delivered : Option SequenceInfo
  num_pending : Option Int
  num_waiting : Option Int
  num_redelivered : Option Int
deriving DecidableEq

/-! ### Consumer lag (tools/consumerTools.ts `diagnoseConsumer`) -/

/-- Lag computation of `diagnoseConsumer` (consumerTools.ts lines 50-52):
`streamLastSeq = safeNumber(streamState.state?.last_seq, 0)`,
`deliveredSeq = safeNumber(status.delivered?.stream_seq, 0)`,
`lag = Math.max(0, streamLastSeq - deliveredSeq)`. -/
def diagnoseConsumerLag (streamState : Option StreamState) (status : ConsumerStatus) : Int :=
  let streamLastSeq := safeNumber (streamState.map (·.last_seq)) 0
  let deliveredSeq := safeNumber (status.delivered.map (·.stream_seq)) 0
  max 0 (streamLastSeq - deliveredSeq)

/-- Display of `max_deliver` in the diagnostic report:
`config.max_deliver ? safeValue(config.max_deliver, "0") : "unlimited"`
(JS truthiness: undefined or 0 gives "unlimited"). -/
def maxDeliverDisplay (o : Option Int) : String :=
  match o with
  | some n => if n = 0 then "unlimited" else toString n
  | none => "unlimited"

/-- The line-by-line diagnostic report of `diagnoseConsumer`
(consumerTools.ts lines 57-88).  The float comparison
`num_pending >= max_ack_pending * 0.9` is modelled exactly over the integers
as `10 * num_pending ≥ 9 * max_ack_pending`.  The final source line
`config === undefined` guard is dead (config is defaulted with `|| {}`),
so it contributes no line. -/
def diagnoseConsumerReport (stream consumer : String)
    (status : ConsumerStatus) (streamState : Option StreamState) : List String :=
  let lag := diagnoseConsumerLag streamState status
  let config := status.config.getD emptyConsumerConfig
  let pending := safeNumber status.num_pending 0
  let redelivered := safeNumber status.num_redelivered 0
  let waiting := safeNumber status.num_waiting 0
  ["🔍 Consumer Diagnostic Report",
   "=========================",
   "",
   "📋 Consumer Configuration:",
   "• Name: " ++ consumer,
   "• Stream: " ++ stream,
   "• Durable Name: " ++ safeValue config.durable_name "ephemeral",
   "• Ack Policy: " ++ safeValue config.ack_policy "unknown",
   "• Deliver Policy: " ++ safeValue config.deliver_policy "unknown",
   "• Filter Subject: " ++ safeValue config.filter_subject "none",
   "• Max Ack Pending: " ++ toString (safeNumber config.max_ack_pending 0),
   "• Max Deliver: " ++ maxDeliverDisplay config.max_deliver,
   "",
   "📊 Consumer State:",
   "• Delivered Messages: " ++ toString (safeNumber (status.delivered.map (·.consumer_seq)) 0),
   "• Last Stream Sequence: " ++ toString (safeNumber (status.delivered.map (·.stream_seq)) 0),
   "• Pending Messages: " ++ toString pending,
   "• Waiting Requests: " ++ toString waiting,
   "• Redelivered Messages: " ++ toString redelivered,
   "• Consumer Lag: " ++ toString lag,
   "",
   "⚠️ Potential Issues:"]
  ++ (if pending > 0 then ["• " ++ toString pending ++ " messages pending acknowledgment"] else [])
  ++ (if redelivered > 0 then ["• " ++ toString redelivered ++ " messages have been redelivered"] else [])
  ++ (if lag > 1000 then ["• High consumer lag: " ++ toString lag ++ " messages behind"] else [])
  ++ (if waiting = 0 then ["• No active pull requests"] else [])
  ++ (if safeNumber config.max_ack_pending 0 ≠ 0 ∧
         10 * pending ≥ 9 * safeNumber config.max_ack_pending 0 then
        ["• Approaching maximum ack pending limit"] else [])
  ++ (if status.delivered = none then ["• ⚠️ Consumer delivery data is missing"] else [])

/-- The report of `checkConsumerLag` (consumerTools.ts lines 107-139), split
at the newlines of its single template literal.  It reports only
`num_pending`, `num_waiting` and `num_redelivered`; no lag is computed. -/
def checkConsumerLagReport (stream consumer : String) (stats : ConsumerStatus) : List String :=
  ["📊 Consumer Status for " ++ consumer ++ " in stream " ++ stream ++ ":",
   "• Stream: " ++ stream,
   "• Consumer: " ++ consumer,
   "• Num Pending: " ++ toString (safeNumber stats.num_pending 0),
   "• Num Waiting: " ++ toString (safeNumber stats.num_waiting 0),
   "• Num Redelivered: " ++ toString (safeNumber stats.num_redelivered 0)]

/-! ### monitorStreamHealth per-consumer metrics (tools/streamTools.ts) -/

/-- Consumer status fields read (without guards) by `monitorStreamHealth`. -/
structure MonitorConsumerStatus where
  delivered : SequenceInfo
  num_pending : Int
  num_redelivered : Int
  num_ack_pending : Int
deriving DecidableEq

/-- Per-consumer metric record of `monitorStreamHealth`
(streamTools.ts lines 746-756): note
`lag = finalInfo.state.last_seq - status.delivered.stream_seq`
with no clamping. -/
structure ConsumerMetric where
  name : String
  lag : Int
  pending : Int
  redelivered : Int
  ackPending : Int
deriving DecidableEq

/-- Builds the metric for one consumer in `monitorStreamHealth`. -/
def monitorConsumerMetric (finalLastSeq : Int) (name : String)
    (status : MonitorConsumerStatus) : ConsumerMetric :=
  { name := name
    lag := finalLastSeq - status.delivered.stream_seq
    pending := status.num_pending
    redelivered := status.num_redelivered
    ackPending := status.num_ack_pending }

/-- High-lag flag of `monitorStreamHealth`: consumers with `c.lag > 1000`
(streamTools.ts line 767). -/
def monitorHighLagConsumers (metrics : List ConsumerMetric) : List ConsumerMetric :=
  metrics.filter (fun c => c.lag > 1000)

/-! ### updateStreamConfig (tools/streamTools.ts lines 567-657) -/

/-- The optional arguments of the `updateStreamConfig` tool.  The enum-valued
arguments (`storage`, `retention`, `discard`) arrive as zod-validated strings
and are modelled directly as the enums they are mapped to (the mapping is
total on the validated values, and a supplied enum string is always truthy). -/
structure UpdateArgs where
  maxAge : Option Int := none
  maxBytes : Option Int := none
  maxMsgs : Option Int := none
  maxMsgSize : Option Int := none
  maxConsumers : Option Int := none
  maxMsgsPerSubject : Option Int := none
  storage : Option NStorage := none
  numReplicas : Option Int := none
  retention : Option NRetention := none
  discard : Option NDiscard := none
  sealed : Option Bool := none
  denyDelete : Option Bool := none
  denyPurge : Option Bool := none
  allowRollupHdrs : Option Bool := none
deriving DecidableEq

/-- Arguments of `updateStreamConfig` when invoked with none of the optional fields. -/
def noUpdateArgs : UpdateArgs := {}

/-- JS `a ?? b` over optional fields: the argument when supplied, else the
existing value (which may itself be absent). -/
def nullish (a b : Option Int) : Option Int :=
  match a with
  | some v => some v
  | none => b

/-- The configuration `updateStreamConfig` sends to `js.streams.update`
(streamTools.ts lines 596-613): the current config spread, each field
overridden by `args.x ?? config.x` (or a truthiness test for the enums). -/
def updateStreamConfigSent (config : StreamConfig) (args : UpdateArgs) : StreamConfig :=
  { config with
    max_age := nullish args.maxAge config.max_age
    max_bytes := nullish args.maxBytes config.max_bytes
    max_msgs := nullish args.maxMsgs config.max_msgs
    max_msg_size := nullish args.maxMsgSize config.max_msg_size
    max_consumers := nullish args.maxConsumers config.max_consumers
    max_msgs_per_subject := nullish args.maxMsgsPerSubject config.max_msgs_per_subject
    storage := match args.storage with | some s => s | none => config.storage
    num_replicas := match args.numReplicas with | some n => n | none => config.num_replicas
    retention := match args.retention with | some r => r | none => config.retention
    discard := match args.discard with | some d => d | none => config.discard
    duplicate_window := config.duplicate_window
    sealed := match args.sealed with | some b => b | none => config.sealed
    deny_delete := match args.denyDelete with | some b => b | none => config.deny_delete
    deny_purge := match args.denyPurge with | some b => b | none => config.deny_purge
    allow_rollup_hdrs := match args.allowRollupHdrs with | some b => b | none => config.allow_rollup_hdrs }

/-! ### deleteStream (tools/streamTools.ts lines 519-565) -/

/-- Result of `deleteStream`: the envelope together with whether
`js.streams.delete` was issued to the broker. -/
structure DeleteOutcome where
  result : ToolResult
  deleteIssued : Bool
deriving DecidableEq

/-- Handler `deleteStream`: refuses when `streamInfo.state.consumer_count > 0 && !force`
without calling the broker; otherwise `js.streams.delete` is issued
(`deleteResult` is the response of the broker; a failure is caught and turned
into an error envelope by the catch of the handler). -/
def deleteStream (streamInfo : StreamInfo) (stream : String) (force : Bool)
    (deleteResult : Except String Unit) : DeleteOutcome :=
  if streamInfo.state.consumer_count > 0 ∧ ¬force then
    { result :=
        { text := "⚠️ Stream \"" ++ stream ++ "\" has " ++
            toString streamInfo.state.consumer_count ++ " active consumers.\n" ++
            "Use force=true to delete the stream anyway."
          isError := true }
      deleteIssued := false }
  else
    match deleteResult with
    | Except.ok _ =>
      { result :=
          { text := "✅ Successfully deleted stream \"" ++ stream ++ "\""
            isError := false }
        deleteIssued := true }
    | Except.error e =>
      { result := { text := "❌ Error deleting stream: " ++ e, isError := true }
        deleteIssued := true }

/-! ### purgeStream (tools/streamTools.ts lines 659-706) -/

/-- The optional arguments of the `purgeStream` tool. -/
structure PurgeArgs where
  subject : Option String := none
  sequence : Option Int := none
  keep : Option Int := none
  olderThan : Option Int := none
deriving DecidableEq

/-- The purge options record sent to `js.streams.purge`. -/
structure PurgeOpts where
  filter : Option String := none
  upto_seq : Option Int := none
  keep : Option Int := none
  older_than : Option Int := none
deriving DecidableEq

/-- JS truthiness of an optional string argument. -/
def truthyStr (o : Option String) : Bool :=
  match o with
  | some s => s ≠ ""
  | none => false

/-- JS truthiness of an optional numeric argument (0 is falsy). -/
def truthyNum (o : Option Int) : Bool :=
  match o with
  | some n => n ≠ 0
  | none => false

/-- The option-building block of `purgeStream` (streamTools.ts lines 672-676):
`if (args.subject) purgeOpts.filter = args.subject;` and likewise for
`sequence`/`keep`/`olderThan` — each guard is JS truthiness. -/
def buildPurgeOpts (args : PurgeArgs) : PurgeOpts :=
  { filter := if truthyStr args.subject then args.subject else none
    upto_seq := if truthyNum args.sequence then args.sequence else none
    keep := if truthyNum args.keep then args.keep else none
    older_than := if truthyNum args.olderThan then args.olderThan else none }

/-- The broker calls a stream-tool handler can issue, in order. -/
inductive BrokerOp where
  | infoOp (stream : String)
  | purgeOp (stream : String) (opts : PurgeOpts)
  | streamUpdate (stream : String)
  | streamAdd (stream : String)
  | consumerAdd (stream name : String)
  | consumerUpdate (stream name : String)
deriving DecidableEq

/-- The "Remaining Stream State" block in the success report of `purgeStream`
(streamTools.ts lines 690-694), all read from the pre-purge snapshot. -/
structure RemainingState where
  messages : Int
  bytes : Int
  first_seq : Int
  last_seq : Int
deriving DecidableEq

/-- Successful-path outcome of `purgeStream`: the remaining-state report and
the broker calls issued. -/
structure PurgeOutcome where
  purged : Int
  remaining : RemainingState
  trace : List BrokerOp
deriving DecidableEq

/-- Success path of `purgeStream`: one `info` fetch, one `purge` carrying all the
(truthy) supplied filters, and a report derived from the pre-purge snapshot
(`streamInfo.state.messages - purgeResponse.purged`, pre-purge bytes and
first/last sequences); the state is never fetched again after the purge. -/
def purgeStream (stream : String) (streamInfo : StreamInfo) (args : PurgeArgs)
    (purgedCount : Int) : PurgeOutcome :=
  { purged := purgedCount
    remaining :=
      { messages := streamInfo.state.messages - purgedCount
        bytes := streamInfo.state.bytes
        first_seq := streamInfo.state.first_seq
        last_seq := streamInfo.state.last_seq }
    trace := [BrokerOp.infoOp stream, BrokerOp.purgeOp stream (buildPurgeOpts args)] }

/-! ### addStreamSource (tools/streamTools.ts lines 363-410) -/

/-- The updated config built by `addStreamSource` (lines 377-383):
`sources: [...(streamInfo.config.sources || []), { name: args.sourceStream }]`
— an unconditional append, with no membership check. -/
def addStreamSourceConfig (config : StreamConfig) (sourceStream : String) : StreamConfig :=
  { config with
    sources := some ((config.sources.getD []) ++ [⟨sourceStream⟩]) }

/-! ### addSubjects (tools/streamTools.ts lines 149-190) -/

/-- JS `[...new Set(l)]`: first occurrences kept, in insertion order. -/
def jsSetDedup : List String → List String
  | [] => []
  | x :: xs => x :: jsSetDedup (xs.filter (fun y => y ≠ x))
termination_by l => l.length
decreasing_by
  simp only [List.length_cons]
  exact Nat.lt_succ_of_le (List.length_filter_le _ _)

/-- The subject list `addSubjects` writes:
`[...new Set([...(streamInfo.config.subjects || []), ...subjects])]`. -/
def addSubjectsUpdatedSubjects (existing newSubjects : List String) : List String :=
  jsSetDedup (existing ++ newSubjects)

/-- Handler `addSubjects`.  `conn` is the `connect(...)` call, awaited
*outside* the `try` block (streamTools.ts lines 153-156): a connection
failure is not caught and propagates out of the handler (`Except.error`).
`info` and `update` are the JetStream calls made inside the `try`; any
failure there is caught and converted to an `isError` envelope. -/
def addSubjects (conn : Except String Unit) (info : Except String StreamInfo)
    (update : StreamConfig → Except String StreamInfo)
    (stream : String) (subjects : List String) : Except String ToolResult :=
  match conn with
  | Except.error e => Except.error e
  | Except.ok _ =>
    let body : Except String String := do
      let streamInfo ← info
      let updatedSubjects := addSubjectsUpdatedSubjects streamInfo.config.subjects subjects
      let streamConfig := { streamInfo.config with subjects := updatedSubjects }
      let updatedStream ← update streamConfig
      pure ("✅ Successfully updated stream \"" ++ stream ++ "\"\n\n" ++
            "📋 Updated Stream Configuration:\n" ++
            "• Name: " ++ updatedStream.config.name ++ "\n" ++
            "• Subjects: " ++ String.intercalate ", " updatedStream.config.subjects)
    Except.ok (match body with
      | Except.ok t => { text := t, isError := false }
      | Except.error e => { text := "❌ Error updating stream: " ++ e, isError := true })

/-! ### backupStream restore path (tools/streamTools.ts lines 953-1011) -/

/-- A consumer entry of a backup blob; its config payload is passed through
to the broker untouched, so only the name matters here. -/
structure BackupConsumer where
  name : String
deriving DecidableEq

/-- The parsed backup blob as the restore path reads it. -/
structure BackupData where
  version : String
  consumers : List BackupConsumer
deriving DecidableEq

/-- Outcome of the restore branch: the envelope and the broker mutations
issued. -/
structure RestoreOutcome where
  result : ToolResult
  mutations : List BrokerOp
deriving DecidableEq

/-- The restore branch of `backupStream` from the point the backup blob is
parsed (streamTools.ts lines 968-1011): first the version tag is checked
against exactly "1.0" (line 971) — a mismatch returns an error envelope
before any broker call — then the stream is upserted (update if
`js.streams.info` succeeds, else add) and each consumer is added, falling
back to update when the add throws. -/
def restoreFromBackup (stream : String) (backupData : BackupData)
    (streamExists : Bool) (consumerAddFails : String → Bool) : RestoreOutcome :=
  if backupData.version ≠ "1.0" then
    { result := { text := "❌ Unsupported backup version: " ++ backupData.version
                  isError := true }
      mutations := [] }
  else
    let streamOp := if streamExists then BrokerOp.streamUpdate stream
                    else BrokerOp.streamAdd stream
    let consumerOps := backupData.consumers.flatMap (fun c =>
      if consumerAddFails c.name then
        [BrokerOp.consumerAdd stream c.name, BrokerOp.consumerUpdate stream c.name]
      else
        [BrokerOp.consumerAdd stream c.name])
    { result := { text := "✅ Successfully restored stream \"" ++ stream ++ "\" from backup"
                  isError := false }
      mutations := streamOp :: consumerOps }

/-! ### Message scan tools (tools/msgTools.ts) -/

/-- A stored message as returned by `jsm.streams.getMessage`. -/
structure StoredMsg where
  subject : String
  header : List (String × String)
  data : String

/-- An entry collected by `listMessagesBySubject`. -/
structure FilteredMessage where
  sequence : Int
  subject : String
  data : String
deriving DecidableEq

/-- An entry collected by `searchMessagesByHeader`. -/
structure HeaderMatchMessage where
  sequence : Int
  subject : String
  headerValue : Option String
  data : String
deriving DecidableEq

/-- The descending scan range of the `for` loop
`for (let seq = lastSeq; seq >= firstSeq ...; seq--)`:
`lastSeq, lastSeq - 1, ..., firstSeq` (empty when `lastSeq < firstSeq`). -/
def scanSeqsDesc (lastSeq firstSeq : Int) : List Int :=
  (List.range (lastSeq - firstSeq + 1).toNat).map (fun (i : Nat) => lastSeq - (i : Int))

/-- The shared scan loop of `listMessagesBySubject` / `searchMessagesByHeader`:
walk the sequence numbers while fewer than `count` matches are collected;
fetch each message individually (`fetch s = none` models the per-sequence
`try { getMessage } catch { /- skip missing -/ }`); keep those satisfying
`keep`, building the entry with `mk`. -/
def collectScan {α : Type} (fetch : Int → Option StoredMsg) (keep : StoredMsg → Bool)
    (mk : Int → StoredMsg → α) (count : Int) :
    List Int → List α → List α
  | [], acc => acc
  | s :: rest, acc =>
    if (acc.length : Int) < count then
      match fetch s with
      | some m =>
        collectScan fetch keep mk count rest
          (if keep m then acc ++ [mk s m] else acc)
      | none => collectScan fetch keep mk count rest acc
    else acc

/-- The subject filter of `listMessagesBySubject` (msgTools.ts line 174):
`msg.subject && (msg.subject === subject || msg.subject.match(regex))`;
the glob-to-regex match is abstracted as the predicate `globMatch`. -/
def subjectKeep (globMatch : String → String → Bool) (subject : String)
    (m : StoredMsg) : Bool :=
  m.subject ≠ "" ∧ (m.subject = subject ∨ globMatch subject m.subject)

/-- The header filter of `searchMessagesByHeader` (msgTools.ts lines 233-235):
the header map must contain `headerKey`, and either the wanted value is the
empty string (falsy, presence-only match) or the stored value equals it. -/
def headerKeep (headerKey headerValue : String) (m : StoredMsg) : Bool :=
  match m.header.lookup headerKey with
  | some v => headerValue = "" ∨ v = headerValue
  | none => false

/-- Value `firstSeq = Math.max(1, lastSeq - 500 + 1)` (msgTools.ts lines 169, 230). -/
def scanFirstSeq (lastSeq : Int) : Int :=
  max 1 (lastSeq - 500 + 1)

/-- The messages collected by `listMessagesBySubject` (msgTools.ts
lines 166-188). -/
def listMessagesBySubjectMsgs (globMatch : String → String → Bool)
    (fetch : Int → Option StoredMsg) (lastSeq : Int) (subject : String)
    (count : Int) : List FilteredMessage :=
  collectScan fetch (subjectKeep globMatch subject)
    (fun s m => { sequence := s, subject := m.subject, data := m.data })
    count (scanSeqsDesc lastSeq (scanFirstSeq lastSeq)) []

/-- The messages collected by `searchMessagesByHeader` (msgTools.ts
lines 225-249). -/
def searchMessagesByHeaderMsgs (fetch : Int → Option StoredMsg) (lastSeq : Int)
    (headerKey headerValue : String) (count : Int) : List HeaderMatchMessage :=
  collectScan fetch (headerKeep headerKey headerValue)
    (fun s m => { sequence := s, subject := m.subject,
                  headerValue := m.header.lookup headerKey, data := m.data })
    count (scanSeqsDesc lastSeq (scanFirstSeq lastSeq)) []

/-- The `listMessagesBySubject` handler from the point the stream info is
fetched (`info` is the `jsm.streams.info` call, inside the outer `try`):
whether matches were found or every individual fetch failed, the success
branches carry no `isError`; only the outer catch (e.g. info failing)
produces an error envelope. -/
def listMessagesBySubjectTool (globMatch : String → String → Bool)
    (fetch : Int → Option StoredMsg) (info : Except String StreamInfo)
    (stream subject : String) (count : Int) : ToolResult :=
  match info with
  | Except.error e =>
    { text := "❌ Error listing messages by subject: " ++ e, isError := true }
  | Except.ok si =>
    let messages := listMessagesBySubjectMsgs globMatch fetch si.state.last_seq subject count
    if messages.length = 0 then
      { text := "📭 No messages found in stream \"" ++ stream ++
          "\" matching subject \"" ++ subject ++ "\".", isError := false }
    else
      { text := "📋 Recent " ++ toString messages.length ++ " messages in stream \"" ++
          stream ++ "\" matching subject \"" ++ subject ++ "\"", isError := false }

/-- The `searchMessagesByHeader` handler from the point the stream info is
fetched; same envelope structure as `listMessagesBySubjectTool`. -/
def searchMessagesByHeaderTool (fetch : Int → Option StoredMsg)
    (info : Except String StreamInfo) (stream headerKey headerValue : String)
    (count : Int) : ToolResult :=
  match info with
  | Except.error e =>
    { text := "❌ Error searching messages by header: " ++ e, isError := true }
  | Except.ok si =>
    let messages := searchMessagesByHeaderMsgs fetch si.state.last_seq headerKey headerValue count
    if messages.length = 0 then
      { text := "📭 No messages found in stream \"" ++ stream ++
          "\" with header \"" ++ headerKey ++ "\".", isError := false }
    else
      { text := "📋 Found " ++ toString messages.length ++ " messages in stream \"" ++
          stream ++ "\" with header \"" ++ headerKey ++ "\"", isError := false }

/-! ### Concrete sample data used by witnesses and counterexamples -/

/-- A concrete stream descriptor. -/
def sampleConfig : StreamConfig :=
  { name := "orders", subjects := ["orders.*"], max_age := none, max_bytes := none,
    max_msgs := none, max_msg_size := none, max_consumers := none,
    max_msgs_per_subject := none, storage := NStorage.file, num_replicas := 1,
    retention := NRetention.limits, discard := NDiscard.old, duplicate_window := none,
    sealed := false, deny_delete := false, deny_purge := false,
    allow_rollup_hdrs := false, sources := none }

/-- A concrete stream with two consumers attached. -/
def sampleStreamInfo : StreamInfo :=
  { config := sampleConfig
    state := { messages := 10, bytes := 100, first_seq := 1, last_seq := 10,
               consumer_count := 2 } }

/-- A concrete stream descriptor that already sources the stream "SRC". -/
def sampleConfigWithSource : StreamConfig :=
  { sampleConfig with sources := some [⟨"SRC"⟩] }

/-! ### Helper lemmas about the scan loop -/

/-- Once `count` matches are collected, the loop exits immediately. -/
theorem collectScan_stop {α : Type} (fetch : Int → Option StoredMsg)
    (keep : StoredMsg → Bool) (mk : Int → StoredMsg → α) (count : Int)
    (seqs : List Int) (acc : List α) (h : ¬((acc.length : Int) < count)) :
    collectScan fetch keep mk count seqs acc = acc := by
  cases seqs <;> simp [collectScan, h]

/-- A sequence whose individual fetch fails is skipped: the loop result is
the same as if that sequence were not scanned at all. -/
theorem collectScan_skip {α : Type} (fetch : Int → Option StoredMsg)
    (keep : StoredMsg → Bool) (mk : Int → StoredMsg → α) (count : Int)
    (s : Int) (rest : List Int) (acc : List α) (hf : fetch s = none) :
    collectScan fetch keep mk count (s :: rest) acc
      = collectScan fetch keep mk count rest acc := by
  by_cases h : ((acc.length : Int) < count)
  · simp [collectScan, h, hf]
  · rw [collectScan_stop fetch keep mk count (s :: rest) acc h,
        collectScan_stop fetch keep mk count rest acc h]

/-- The loop never collects more than `count` entries (given the accumulator
respects the bound). -/
theorem collectScan_length_le {α : Type} (fetch : Int → Option StoredMsg)
    (keep : StoredMsg → Bool) (mk : Int → StoredMsg → α) (count : Int) :
    ∀ (seqs : List Int) (acc : List α), acc.length ≤ count.toNat →
      (collectScan fetch keep mk count seqs acc).length ≤ count.toNat := by
  intro seqs
  induction seqs with
  | nil => intro acc h; simpa [collectScan] using h
  | cons s rest ih =>
    intro acc h
    by_cases hlt : ((acc.length : Int) < count)
    · simp only [collectScan, if_pos hlt]
      cases hf : fetch s with
      | none => exact ih acc h
      | some m =>
        by_cases hk : keep m = true
        · simp only [hk, if_pos]
          exact ih (acc ++ [mk s m]) (by simp; omega)
        · simp only [hk, if_neg]
          exact ih acc h
    · rw [collectScan_stop fetch keep mk count (s :: rest) acc hlt]
      exact h

/-- Everything the loop collects comes from the accumulator or from a scanned
sequence whose fetch succeeded and whose message passed the filter. -/
theorem mem_collectScan {α : Type} (fetch : Int → Option StoredMsg)
    (keep : StoredMsg → Bool) (mk : Int → StoredMsg → α) (count : Int) :
    ∀ (seqs : List Int) (acc : List α) (a : α),
      a ∈ collectScan fetch keep mk count seqs acc →
      a ∈ acc ∨ ∃ s ∈ seqs, ∃ m, fetch s = some m ∧ keep m = true ∧ a = mk s m := by
  intro seqs
  induction seqs with
  | nil => intro acc a h; exact Or.inl (by simpa [collectScan] using h)
  | cons s rest ih =>
    intro acc a h
    by_cases hlt : ((acc.length : Int) < count)
    · cases hf : fetch s with
      | none =>
        simp only [collectScan, if_pos hlt, hf] at h
        rcases ih acc a h with h' | ⟨s', hs', m, hm, hk, ha⟩
        · exact Or.inl h'
        · exact Or.inr ⟨s', List.mem_cons_of_mem _ hs', m, hm, hk, ha⟩
      | some m =>
        simp only [collectScan, if_pos hlt, hf] at h
        by_cases hk : keep m = true
        · rw [if_pos hk] at h
          rcases ih (acc ++ [mk s m]) a h with h' | ⟨s', hs', m', hm', hk', ha⟩
          · rcases List.mem_append.mp h' with h'' | h''
            · exact Or.inl h''
            · refine Or.inr ⟨s, List.mem_cons_self _ _, m, hf, hk, ?_⟩
              simpa using h''
          · exact Or.inr ⟨s', List.mem_cons_of_mem _ hs', m', hm', hk', ha⟩
        · rw [if_neg hk] at h
          rcases ih acc a h with h' | ⟨s', hs', m', hm', hk', ha⟩
          · exact Or.inl h'
          · exact Or.inr ⟨s', List.mem_cons_of_mem _ hs', m', hm', hk', ha⟩
    · rw [collectScan_stop fetch keep mk count (s :: rest) acc hlt] at h
      exact Or.inl h

/-- Every member of the descending scan range lies between `firstSeq` and
`lastSeq`. -/
theorem mem_scanSeqsDesc {lastSeq firstSeq x : Int}
    (h : x ∈ scanSeqsDesc lastSeq firstSeq) : firstSeq ≤ x ∧ x ≤ lastSeq := by
  unfold scanSeqsDesc at h
  rcases List.mem_map.mp h with ⟨i, hi, rfl⟩
  rw [List.mem_range] at hi
  have h2 : (i : Int) < lastSeq - firstSeq + 1 := by
    rwa [Int.lt_toNat] at hi
  omega

/-! ### Claim theorems -/

/-- C1, counterexample: the claim says every handler converts any exception —
including a failure to open the broker connection — into a `{content, isError}`
envelope.  But in `addSubjects` (streamTools.ts lines 153-156, likewise in
every other handler) `connect(...)` is awaited before the `try` block, so a
rejected connection propagates out of the handler as a raw exception instead
of an envelope: at this concrete input the handler result is the raw error,
not an `Except.ok` envelope. -/
theorem addSubjects_propagates_connect_failure :
    addSubjects (Except.error "connection refused") (Except.ok sampleStreamInfo)
      (fun _ => Except.ok sampleStreamInfo) "orders" ["orders.new"]
      = Except.error "connection refused" := rfl

/-- C1, amended: exceptions raised inside the handler body after the
connection is opened (the jetstream calls inside the `try`) are caught and
converted into a textual `isError` envelope, and the handler then always
returns an envelope; but a failure of the `connect` call itself, which sits
outside the `try`, propagates to the caller unconverted. -/
theorem addSubjects_uniform_envelope_after_connect
    (info : Except String StreamInfo)
    (update : StreamConfig → Except String StreamInfo)
    (stream : String) (subjects : List String) (e : String) :
    addSubjects (Except.error e) info update stream subjects = Except.error e
  ∧ (∃ r, addSubjects (Except.ok ()) info update stream subjects = Except.ok r)
  ∧ addSubjects (Except.ok ()) (Except.error e) update stream subjects
      = Except.ok { text := "❌ Error updating stream: " ++ e, isError := true } := by
  exact ⟨rfl, ⟨_, rfl⟩, rfl⟩

/-- C2, counterexample: the claim says the per-consumer lag computed by
`monitorStreamHealth` equals `max(0, last_seq - delivered.stream_seq)` and is
non-negative even when the delivered sequence exceeds the last sequence.
But streamTools.ts line 748 computes `finalInfo.state.last_seq -
status.delivered.stream_seq` with no clamping: with `last_seq = 0` and
`delivered.stream_seq = 1` the reported lag is `-1`, which is negative and
differs from `max(0, 0 - 1) = 0`. -/
theorem monitorStreamHealth_lag_negative_cex :
    (monitorConsumerMetric 0 "c1" ⟨⟨1, 1⟩, 0, 0, 0⟩).lag = -1
  ∧ (monitorConsumerMetric 0 "c1" ⟨⟨1, 1⟩, 0, 0, 0⟩).lag < 0
  ∧ (monitorConsumerMetric 0 "c1" ⟨⟨1, 1⟩, 0, 0, 0⟩).lag ≠ max 0 ((0 : Int) - 1) := by
  refine ⟨rfl, by decide, by decide⟩

/-- C2, amended: `diagnoseConsumer` computes its lag as
`max(0, stream.last_seq - consumer.delivered.stream_seq)` (with absent values
defaulted to 0), which is always non-negative; `monitorStreamHealth` computes
the unclamped difference `last_seq - delivered.stream_seq`, which agrees with
the clamped formula only when the delivered sequence does not exceed the last
sequence. -/
theorem consumer_lag_clamped_in_diagnose_only
    (streamState : Option StreamState) (status : ConsumerStatus)
    (finalLastSeq : Int) (name : String) (mc : MonitorConsumerStatus) :
    diagnoseConsumerLag streamState status =
      max 0 (safeNumber (streamState.map (·.last_seq)) 0 -
             safeNumber (status.delivered.map (·.stream_seq)) 0)
  ∧ 0 ≤ diagnoseConsumerLag streamState status
  ∧ (monitorConsumerMetric finalLastSeq name mc).lag
      = finalLastSeq - mc.delivered.stream_seq
  ∧ (mc.delivered.stream_seq ≤ finalLastSeq →
      (monitorConsumerMetric finalLastSeq name mc).lag
        = max 0 (finalLastSeq - mc.delivered.stream_seq)) := by
  refine ⟨rfl, le_max_left _ _, rfl, fun h => ?_⟩
  show finalLastSeq - mc.delivered.stream_seq = _
  rw [max_eq_right (by omega)]

/-- C2, witness for the amended theorem at the concrete scenario of the spec
(`last_seq = 1200`, `delivered.stream_seq = 50`). -/
theorem consumer_lag_clamped_witness :
    0 ≤ diagnoseConsumerLag (some ⟨100, 1000, 1, 1200, 2⟩)
          ⟨none, some ⟨50, 42⟩, none, none, none⟩
  ∧ (monitorConsumerMetric 1200 "c1" ⟨⟨50, 42⟩, 0, 0, 0⟩).lag
      = max 0 ((1200 : Int) - 50) :=
  ⟨(consumer_lag_clamped_in_diagnose_only (some ⟨100, 1000, 1, 1200, 2⟩)
      ⟨none, some ⟨50, 42⟩, none, none, none⟩ 1200 "c1" ⟨⟨50, 42⟩, 0, 0, 0⟩).2.1,
   (consumer_lag_clamped_in_diagnose_only (some ⟨100, 1000, 1, 1200, 2⟩)
      ⟨none, some ⟨50, 42⟩, none, none, none⟩ 1200 "c1" ⟨⟨50, 42⟩, 0, 0, 0⟩).2.2.2
     (by decide)⟩

/-- C3, counterexample: the claim says `checkConsumerLag` reports a lag of
1150 flagged as high for a consumer at `delivered.stream_seq = 50` on a
stream at `last_seq = 1200`.  But `checkConsumerLag` (consumerTools.ts
lines 107-139) never fetches the stream state and computes no lag: its report
for such a consumer contains neither a lag line nor a high-lag flag. -/
theorem checkConsumerLag_reports_no_lag_cex :
    "• Consumer Lag: 1150" ∉
      checkConsumerLagReport "orders" "workers" ⟨none, some ⟨50, 42⟩, some 5, some 1, some 0⟩
  ∧ "• High consumer lag: 1150 messages behind" ∉
      checkConsumerLagReport "orders" "workers" ⟨none, some ⟨50, 42⟩, some 5, some 1, some 0⟩ := by
  decide

/-- C3, amended: the lag-and-threshold behaviour the claim describes belongs
to `diagnoseConsumer`: for a consumer with `delivered.stream_seq = 50` on a
stream with `last_seq = 1200` it computes lag 1150, reports it, and flags it
as high because it exceeds the fixed threshold 1000. -/
theorem diagnoseConsumer_reports_lag_1150 :
    diagnoseConsumerLag (some ⟨100, 1000, 1, 1200, 2⟩)
        ⟨some {}, some ⟨50, 42⟩, some 0, some 1, some 0⟩ = 1150
  ∧ "• Consumer Lag: 1150" ∈
      diagnoseConsumerReport "orders" "workers"
        ⟨some {}, some ⟨50, 42⟩, some 0, some 1, some 0⟩ (some ⟨100, 1000, 1, 1200, 2⟩)
  ∧ "• High consumer lag: 1150 messages behind" ∈
      diagnoseConsumerReport "orders" "workers"
        ⟨some {}, some ⟨50, 42⟩, some 0, some 1, some 0⟩ (some ⟨100, 1000, 1, 1200, 2⟩) := by
  decide

/-- C4: restoring a backup whose version tag is not exactly "1.0" yields an
`isError` envelope and issues no broker mutation — the version check
(streamTools.ts line 971) precedes the stream upsert and every consumer
add/update. -/
theorem restore_rejects_bad_version_before_mutation
    (stream : String) (backupData : BackupData) (streamExists : Bool)
    (consumerAddFails : String → Bool) (h : backupData.version ≠ "1.0") :
    (restoreFromBackup stream backupData streamExists consumerAddFails).result.isError = true
  ∧ (restoreFromBackup stream backupData streamExists consumerAddFails).mutations = [] := by
  simp [restoreFromBackup, h]

/-- C4, witness at version "2.0". -/
theorem restore_rejects_bad_version_witness :
    (restoreFromBackup "orders" ⟨"2.0", [⟨"c1"⟩]⟩ true (fun _ => false)).result.isError = true
  ∧ (restoreFromBackup "orders" ⟨"2.0", [⟨"c1"⟩]⟩ true (fun _ => false)).mutations = [] :=
  restore_rejects_bad_version_before_mutation "orders" ⟨"2.0", [⟨"c1"⟩]⟩ true
    (fun _ => false) (by decide)

/-- C5: on a stream with `consumer_count > 0`, `deleteStream` without
`force=true` returns an `isError` envelope and issues no delete to the
broker; with `force=true` the delete is issued and (when the broker accepts
it) the operation reports success. -/
theorem deleteStream_refuses_without_force
    (streamInfo : StreamInfo) (stream : String) (deleteResult : Except String Unit)
    (h : streamInfo.state.consumer_count > 0) :
    (deleteStream streamInfo stream false deleteResult).result.isError = true
  ∧ (deleteStream streamInfo stream false deleteResult).deleteIssued = false
  ∧ (deleteStream streamInfo stream true deleteResult).deleteIssued = true
  ∧ (deleteResult = Except.ok () →
      (deleteStream streamInfo stream true deleteResult).result.isError = false) := by
  refine ⟨?_, ?_, ?_, ?_⟩
  · simp [deleteStream, h]
  · simp [deleteStream, h]
  · cases deleteResult <;> simp [deleteStream]
  · intro hd; subst hd; simp [deleteStream]

/-- C5, witness on a concrete stream with two consumers. -/
theorem deleteStream_refuses_without_force_witness :
    (deleteStream sampleStreamInfo "orders" false (Except.ok ())).result.isError = true
  ∧ (deleteStream sampleStreamInfo "orders" true (Except.ok ())).result.isError = false :=
  ⟨(deleteStream_refuses_without_force sampleStreamInfo "orders" (Except.ok ())
      (by decide)).1,
   (deleteStream_refuses_without_force sampleStreamInfo "orders" (Except.ok ())
      (by decide)).2.2.2 rfl⟩

/-- C6: `updateStreamConfig` with none of the optional fields supplied sends
the broker a configuration equal to the current descriptor — an identity
update leaving every field unchanged. -/
theorem updateStreamConfig_no_args_identity (config : StreamConfig) :
    updateStreamConfigSent config noUpdateArgs = config := rfl

/-- C7, counterexample: the claim says every supplied purge filter is
included in the purge request, including filters supplied with the value 0.
But the guards on streamTools.ts lines 673-676 are JS truthiness tests, so a
supplied `sequence = 0` (likewise `keep = 0`, `olderThan = 0`, or an empty
`subject`) is dropped from the request. -/
theorem purgeStream_zero_filters_dropped_cex :
    (buildPurgeOpts ⟨none, some 0, none, none⟩).upto_seq = none
  ∧ buildPurgeOpts ⟨some "", some 0, some 0, some 0⟩
      = { filter := none, upto_seq := none, keep := none, older_than := none } := by
  decide

/-- C7, amended: `purgeStream` sends a single purge request carrying all the
supplied filters that are truthy (non-empty subject, non-zero numbers), so
those filters apply simultaneously; a filter supplied with the value 0 (or an
empty subject) is omitted from the request. -/
theorem purgeStream_includes_truthy_filters
    (stream : String) (streamInfo : StreamInfo) (args : PurgeArgs)
    (purgedCount : Int) :
    (purgeStream stream streamInfo args purgedCount).trace
        = [BrokerOp.infoOp stream, BrokerOp.purgeOp stream (buildPurgeOpts args)]
  ∧ (∀ s, args.subject = some s → s ≠ "" → (buildPurgeOpts args).filter = some s)
  ∧ (∀ n, args.sequence = some n → n ≠ 0 → (buildPurgeOpts args).upto_seq = some n)
  ∧ (∀ n, args.keep = some n → n ≠ 0 → (buildPurgeOpts args).keep = some n)
  ∧ (∀ n, args.olderThan = some n → n ≠ 0 → (buildPurgeOpts args).older_than = some n)
  ∧ (args.sequence = some 0 → (buildPurgeOpts args).upto_seq = none)
  ∧ (args.keep = some 0 → (buildPurgeOpts args).keep = none)
  ∧ (args.olderThan = some 0 → (buildPurgeOpts args).older_than = none) := by
  refine ⟨rfl, ?_, ?_, ?_, ?_, ?_, ?_, ?_⟩
  · intro s hs hne; simp [buildPurgeOpts, truthyStr, hs, hne]
  · intro n hn hne; simp [buildPurgeOpts, truthyNum, hn, hne]
  · intro n hn hne; simp [buildPurgeOpts, truthyNum, hn, hne]
  · intro n hn hne; simp [buildPurgeOpts, truthyNum, hn, hne]
  · intro hz; simp [buildPurgeOpts, truthyNum, hz]
  · intro hz; simp [buildPurgeOpts, truthyNum, hz]
  · intro hz; simp [buildPurgeOpts, truthyNum, hz]

/-- C7, witness: a non-zero sequence filter is included while a zero keep
filter is dropped. -/
theorem purgeStream_includes_truthy_filters_witness :
    (buildPurgeOpts ⟨some "orders.*", some 7, some 0, none⟩).upto_seq = some 7
  ∧ (buildPurgeOpts ⟨some "orders.*", some 7, some 0, none⟩).keep = none :=
  ⟨(purgeStream_includes_truthy_filters "orders" sampleStreamInfo
      ⟨some "orders.*", some 7, some 0, none⟩ 0).2.2.1 7 rfl (by decide),
   (purgeStream_includes_truthy_filters "orders" sampleStreamInfo
      ⟨some "orders.*", some 7, some 0, none⟩ 0).2.2.2.2.2.2.1 rfl⟩

/-- C8: `listMessagesBySubject` and `searchMessagesByHeader` scan at most the
500 most recent sequences (`firstSeq = max(1, lastSeq - 500 + 1)` up to
`lastSeq`), stop once the requested count of matches is collected, skip any
sequence whose individual fetch fails without aborting, and return a
non-error envelope whatever the individual fetches do. -/
theorem scan_tools_bounded_count_and_skip
    (globMatch : String → String → Bool) (fetch : Int → Option StoredMsg)
    (si : StreamInfo) (stream subject headerKey headerValue : String)
    (count : Int) :
    (listMessagesBySubjectMsgs globMatch fetch si.state.last_seq subject count).length
        ≤ count.toNat
  ∧ (∀ m ∈ listMessagesBySubjectMsgs globMatch fetch si.state.last_seq subject count,
      scanFirstSeq si.state.last_seq ≤ m.sequence ∧ m.sequence ≤ si.state.last_seq)
  ∧ (listMessagesBySubjectTool globMatch fetch (Except.ok si) stream subject count).isError
      = false
  ∧ (searchMessagesByHeaderMsgs fetch si.state.last_seq headerKey headerValue count).length
        ≤ count.toNat
  ∧ (∀ m ∈ searchMessagesByHeaderMsgs fetch si.state.last_seq headerKey headerValue count,
      scanFirstSeq si.state.last_seq ≤ m.sequence ∧ m.sequence ≤ si.state.last_seq)
  ∧ (searchMessagesByHeaderTool fetch (Except.ok si) stream headerKey headerValue count).isError
      = false
  ∧ (∀ (keep : StoredMsg → Bool) (mk : Int → StoredMsg → FilteredMessage)
        (s : Int) (rest : List Int) (acc : List FilteredMessage),
      fetch s = none →
      collectScan fetch keep mk count (s :: rest) acc
        = collectScan fetch keep mk count rest acc) := by
  refine ⟨?_, ?_, ?_, ?_, ?_, ?_, ?_⟩
  · exact collectScan_length_le _ _ _ _ _ [] (by simp)
  · intro m hm
    rcases mem_collectScan _ _ _ _ _ _ _ hm with h | ⟨s, hs, msg, _, _, rfl⟩
    · simp at h
    · exact mem_scanSeqsDesc hs
  · simp only [listMessagesBySubjectTool]
    split <;> rfl
  · exact collectScan_length_le _ _ _ _ _ [] (by simp)
  · intro m hm
    rcases mem_collectScan _ _ _ _ _ _ _ hm with h | ⟨s, hs, msg, _, _, rfl⟩
    · simp at h
    · exact mem_scanSeqsDesc hs
  · simp only [searchMessagesByHeaderTool]
    split <;> rfl
  · intro keep mk s rest acc hf
    exact collectScan_skip fetch keep mk count s rest acc hf

/-- C8, witness: the scan-skip equation at a concrete failing fetch. -/
theorem scan_tools_bounded_count_and_skip_witness :
    collectScan (fun _ => none) (fun _ => true)
        (fun s m => ({ sequence := s, subject := m.subject, data := m.data } : FilteredMessage))
        3 [10, 9] []
      = collectScan (fun _ => none) (fun _ => true)
          (fun s m => ({ sequence := s, subject := m.subject, data := m.data } : FilteredMessage))
          3 [9] [] :=
  (scan_tools_bounded_count_and_skip (fun _ _ => false) (fun _ => none)
      sampleStreamInfo "orders" "orders.*" "k" "v" 3).2.2.2.2.2.2
    (fun _ => true)
    (fun s m => ({ sequence := s, subject := m.subject, data := m.data } : FilteredMessage))
    10 [9] [] rfl

/-- C9: the "Remaining Stream State" reported by a successful `purgeStream`
is derived entirely from the pre-purge snapshot — messages are reported as
pre-purge messages minus the purged count, and bytes / first-sequence /
last-sequence are the pre-purge values verbatim — and the broker trace is
exactly one info fetch followed by one purge, with no re-fetch after the
purge. -/
theorem purgeStream_remaining_from_snapshot
    (stream : String) (streamInfo : StreamInfo) (args : PurgeArgs)
    (purgedCount : Int) :
    (purgeStream stream streamInfo args purgedCount).remaining.messages
        = streamInfo.state.messages - purgedCount
  ∧ (purgeStream stream streamInfo args purgedCount).remaining.bytes
        = streamInfo.state.bytes
  ∧ (purgeStream stream streamInfo args purgedCount).remaining.first_seq
        = streamInfo.state.first_seq
  ∧ (purgeStream stream streamInfo args purgedCount).remaining.last_seq
        = streamInfo.state.last_seq
  ∧ (purgeStream stream streamInfo args purgedCount).trace
        = [BrokerOp.infoOp stream, BrokerOp.purgeOp stream (buildPurgeOpts args)]
  ∧ (∀ op ∈ ((purgeStream stream streamInfo args purgedCount).trace).tail,
      ∀ s, op ≠ BrokerOp.infoOp s) := by
  refine ⟨rfl, rfl, rfl, rfl, rfl, ?_⟩
  intro op hop s
  simp only [purgeStream, List.tail_cons, List.mem_singleton] at hop
  subst hop
  intro hcontra
  cases hcontra

/-- C10: when the sources list of a stream already contains an entry named
`x`, `addStreamSource` still appends a second `{name: x}` entry
unconditionally: the updated list is the old list with `⟨x⟩` appended, its
length grows by exactly one, and it now holds at least two entries named
`x` — no de-duplication is performed. -/
theorem addStreamSource_appends_unconditionally
    (config : StreamConfig) (x : String)
    (h : x ∈ (config.sources.getD []).map (·.name)) :
    (addStreamSourceConfig config x).sources
        = some ((config.sources.getD []) ++ [⟨x⟩])
  ∧ ((addStreamSourceConfig config x).sources.getD []).length
        = (config.sources.getD []).length + 1
  ∧ 2 ≤ (((addStreamSourceConfig config x).sources.getD []).filter
          (fun s => s.name = x)).length := by
  refine ⟨rfl, by simp [addStreamSourceConfig], ?_⟩
  rcases List.mem_map.mp h with ⟨s, hs, hname⟩
  have hmem : s ∈ (config.sources.getD []).filter (fun t => t.name = x) :=
    List.mem_filter.mpr ⟨hs, by simp [hname]⟩
  have h1 : 0 < ((config.sources.getD []).filter (fun t => t.name = x)).length :=
    List.length_pos_of_mem hmem
  simp only [addStreamSourceConfig, Option.getD_some, List.filter_append]
  simp only [List.length_append]
  have h2 : ((List.filter (fun t => t.name = x) [(⟨x⟩ : StreamSource)])).length = 1 := by
    simp
  omega

/-- C10, witness on a stream already sourcing "SRC". -/
theorem addStreamSource_appends_unconditionally_witness :
    2 ≤ (((addStreamSourceConfig sampleConfigWithSource "SRC").sources.getD []).filter
          (fun s => s.name = "SRC")).length :=
  (addStreamSource_appends_unconditionally sampleConfigWithSource "SRC" (by decide)).2.2

end NatsMcp
